import Mathlib

/-!
Verification of the session core of a CQL-family driver stub.

The repository source under scrutiny is `src/scylla/src/transport/session.rs`,
which defines the `Session` type (field `connection : Connection`) and its three
operations `connect`, `query` and `prepare`.  The collaborating modules
(`Connection`, the frame codec, `Query`, `PreparedStatement`, the response
types) are part of the repository but are not in the provided sources; where a
definition below stands in for one of them it is modelled from the
specification and says so in its doc comment.
-/

set_option autoImplicit false

namespace Scylla

/-- Modelled from the spec: the ERROR response body carried by
`frame::response::Error` (not under src/): an i32 code plus a string
message (§4.1, §7). -/
structure DbError where
  code : Nat
  message : String
  deriving Repr, DecidableEq

/-- Modelled from the spec: `ResultKind` subvariants of a RESULT response
(§3).  Metadata and row bytes are opaque byte lists to the session layer. -/
inductive ResultKind where
  | void
  | setKeyspace (name : String)
  | rows (metadata : List Nat) (rowsBytes : List Nat)
  | prepared (id : List Nat) (metadata : List Nat) (resultMetadata : List Nat)
  | schemaChange
  deriving Repr, DecidableEq

/-- Modelled from the spec: the semantic, post-decode `Response` variants
(§3); this is the `Response` type matched on by `Session::query` and
`Session::prepare`. -/
inductive Response where
  | error (e : DbError)
  | ready
  | authenticate (authenticator : String)
  | supported (options : List (String × String))
  | result (k : ResultKind)
  | event
  deriving Repr, DecidableEq

/-- Whether a response is an ERROR or a RESULT, the only two variants the
session treats specially. -/
def Response.isErrorOrResult : Response → Bool
  | .error _ => true
  | .result _ => true
  | _ => false

/-- Modelled from the spec: the protocol `Consistency` enum (§3). -/
inductive Consistency where
  | any
  | one
  | two
  | three
  | quorum
  | all
  | localQuorum
  | eachQuorum
  | serial
  | localSerial
  | localOne
  deriving Repr, DecidableEq

/-- Modelled from the spec: the `Query` value submitted by `Session::query`
(§3); only the fields the session layer touches are kept. -/
structure Query where
  statement : String
  consistency : Consistency
  deriving Repr, DecidableEq

/-- Modelled from the spec / source usage: `PreparedStatement::new` is called
with a single id argument (`"stub_id".into()` in the source), so the handle
carries the id. -/
structure PreparedStatement where
  id : String
  deriving Repr, DecidableEq

/-- The `Connection` owned by a `Session`.  Its internals are opaque to the
session layer; an abstract identity stands in for the socket and tasks. -/
structure Connection where
  connId : Nat
  deriving Repr, DecidableEq

/-- Errors a session operation can produce: an error propagated from the
Connection layer (the `?` operator), a typed server error (`err.into()` on an
ERROR response), or the `anyhow!("Unexpected frame received")` error of the
catch-all match arm. -/
inductive SessionError where
  | connection (msg : String)
  | server (e : DbError)
  | unexpectedFrame
  deriving Repr, DecidableEq

/-- Modelled from the spec: named server error codes of §7. -/
inductive ErrorCode where
  | serverError
  | protocolError
  | authError
  | unavailable
  | overloaded
  | isBootstrapping
  | truncateError
  | writeTimeout
  | readTimeout
  | syntaxError
  | unauthorized
  | invalid
  | configError
  | alreadyExists
  | unprepared
  | unknown (code : Nat)
  deriving Repr, DecidableEq

/-- Modelled from the spec: the code → named-error mapping of §7. -/
def ErrorCode.ofNat : Nat → ErrorCode
  | 0x0000 => .serverError
  | 0x000A => .protocolError
  | 0x0100 => .authError
  | 0x1000 => .unavailable
  | 0x1001 => .overloaded
  | 0x1002 => .isBootstrapping
  | 0x1003 => .truncateError
  | 0x1100 => .writeTimeout
  | 0x1200 => .readTimeout
  | 0x2000 => .syntaxError
  | 0x2100 => .unauthorized
  | 0x2200 => .invalid
  | 0x2300 => .configError
  | 0x2400 => .alreadyExists
  | 0x2500 => .unprepared
  | c => .unknown c

/-- The session state of the source: `pub struct Session { connection: Connection }`. -/
structure Session where
  connection : Connection
  deriving Repr, DecidableEq

/-- Modelled from the spec: the STARTUP options string-map; `Default::default()`
is the minimal map of §4.1/§6. -/
structure StartupOptions where
  entries : List (String × String)
  deriving Repr, DecidableEq

/-- Modelled from the spec: the default STARTUP options,
`{"CQL_VERSION": "3.0.0"}` (§4.1, §6). -/
def StartupOptions.default : StartupOptions :=
  ⟨[("CQL_VERSION", "3.0.0")]⟩

/-- A Connection-layer call performed by `Session::connect`, recorded so that
theorems can speak about which operations were invoked and with which
arguments. -/
inductive ConnOp where
  | newConn (addr : String)
  | startup (opts : StartupOptions)
  deriving Repr, DecidableEq

/-- Embedding of `Session::connect` (session.rs lines 14–20):
`Connection::new(addr).await?`, then `connection.startup(Default::default()).await?`,
then `Ok(Session { connection })`.  The Connection layer is not under src/, so
its two calls are abstracted as the function arguments `newConn` and
`startup`; the returned trace records the calls actually made. -/
def Session.connect (addr : String)
    (newConn : String → Except SessionError Connection)
    (startup : Connection → StartupOptions → Except SessionError Unit) :
    Except SessionError Session × List ConnOp :=
  match newConn addr with
  | .error e => (.error e, [ConnOp.newConn addr])
  | .ok c =>
    match startup c StartupOptions.default with
    | .error e => (.error e, [ConnOp.newConn addr, ConnOp.startup StartupOptions.default])
    | .ok _ => (.ok ⟨c⟩, [ConnOp.newConn addr, ConnOp.startup StartupOptions.default])

/-- Embedding of `Session::query` (session.rs lines 23–33).  The outcome of
`self.connection.query(&query.into()).await` is supplied by the abstract
Connection behaviour `net`; the `?` operator propagates its error.  The match
is the source's: `Error(err) => Err(err.into())`, `Result(_) => Ok(())`,
`_ => Err(anyhow!("Unexpected frame received"))`.  The session is returned
unchanged, mirroring the `&self` receiver. -/
def Session.query (s : Session) (q : Query)
    (net : Connection → Query → Except SessionError Response) :
    Session × Except SessionError Unit :=
  (s,
    match net s.connection q with
    | .error e => .error e
    | .ok (.error err) => .error (.server err)
    | .ok (.result _) => .ok ()
    | .ok _ => .error .unexpectedFrame)

/-- Embedding of `Session::prepare` (session.rs lines 35–47).  The outcome of
`self.connection.prepare(query).await` is supplied by `net`.  The match is the
source's: `Error(err) => Err(err.into())`,
`Result(_) => Ok(PreparedStatement::new("stub_id".into()))` (the FIXME branch),
`_ => Err(anyhow!("Unexpected frame received"))`. -/
def Session.prepare (s : Session) (stmt : String)
    (net : Connection → String → Except SessionError Response) :
    Session × Except SessionError PreparedStatement :=
  (s,
    match net s.connection stmt with
    | .error e => .error e
    | .ok (.error err) => .error (.server err)
    | .ok (.result _) => .ok ⟨"stub_id"⟩
    | .ok _ => .error .unexpectedFrame)

/-- Modelled from the spec: the 9-byte frame envelope of §3/§6 — version u8,
flags u8, stream i16 (big-endian, two's complement), opcode u8, length u32
(big-endian) — followed by `length` body bytes.  The frame codec is part of
the repository but is not under src/. -/
structure Frame where
  version : Nat
  flags : Nat
  stream : Int
  opcode : Nat
  body : List Nat
  deriving Repr, DecidableEq

/-- Modelled from the spec: decode rejects `length > 256 MiB` as
`OversizedFrame` (§4.1). -/
def maxFrameLength : Nat := 268435456

/-- The stream id as the unsigned 16-bit value written on the wire
(two's complement of the signed id). -/
def Frame.streamBits (f : Frame) : Nat :=
  (f.stream % 65536).toNat

/-- Modelled from the spec: `encode(header, body)` serializes the header
big-endian and appends the body (§4.1, §6 table); the body length field is the
body's length. -/
def Frame.encode (f : Frame) : List Nat :=
  f.version :: f.flags ::
  f.streamBits / 256 :: f.streamBits % 256 ::
  f.opcode ::
  f.body.length / 16777216 :: f.body.length / 65536 % 256 ::
  f.body.length / 256 % 256 :: f.body.length % 256 ::
  f.body

/-- Modelled from the spec: `decode(reader)` reads the 9 header bytes then
`length` body bytes; it fails on a version whose low 7 bits (`version % 128`)
differ from the negotiated version (`ProtocolVersionMismatch`), on
`length > 256 MiB` (`OversizedFrame`), and on EOF before the body is complete
(`TruncatedFrame`) (§4.1). -/
def Frame.decode (negotiated : Nat) : List Nat → Option Frame
  | v :: fl :: s1 :: s0 :: op :: l3 :: l2 :: l1 :: l0 :: rest =>
    if v % 128 ≠ negotiated then none
    else
      let len := ((l3 * 256 + l2) * 256 + l1) * 256 + l0
      if maxFrameLength < len then none
      else if rest.length < len then none
      else
        let su := s1 * 256 + s0
        some ⟨v, fl, if 32768 ≤ su then (su : Int) - 65536 else (su : Int),
              op, rest.take len⟩
  | _ => none

/-- A frame is representable when its fields fit the envelope of §6: bytes in
range, stream a signed 16-bit value, body within the 256 MiB limit and made of
bytes, and the version's low 7 bits equal to the negotiated version. -/
def Frame.wellFormed (negotiated : Nat) (f : Frame) : Prop :=
  f.version < 256 ∧ f.flags < 256 ∧
  (-32768 : Int) ≤ f.stream ∧ f.stream < 32768 ∧
  f.opcode < 256 ∧
  f.body.length ≤ maxFrameLength ∧ (∀ b ∈ f.body, b < 256) ∧
  f.version % 128 = negotiated

/-- A post-construction session operation together with the Connection
behaviour in effect when it runs. -/
inductive SessionOp where
  | query (q : Query) (net : Connection → Query → Except SessionError Response)
  | prepare (stmt : String) (net : Connection → String → Except SessionError Response)

/-- The session state after one operation. -/
def Session.step (s : Session) : SessionOp → Session
  | .query q net => (Session.query s q net).1
  | .prepare stmt net => (Session.prepare s stmt net).1

/-- The session state after a sequence of operations. -/
def Session.run (s : Session) : List SessionOp → Session
  | [] => s
  | op :: rest => Session.run (Session.step s op) rest

/-! ## Theorems -/

/-- C8: for every frame with a representable body, decoding the encoding of
that frame returns the original frame: `decode (encode x) = x`. -/
theorem frame_decode_encode (negotiated : Nat) (f : Frame)
    (h : Frame.wellFormed negotiated f) :
    Frame.decode negotiated (Frame.encode f) = some f := by
  obtain ⟨hv, hf, hs1, hs2, ho, hl, hb, hneg⟩ := h
  have hsu : f.streamBits < 65536 := by
    unfold Frame.streamBits
    omega
  have hsb : f.streamBits = (f.stream % 65536).toNat := rfl
  unfold maxFrameLength at hl
  have hlen : f.body.length < 4294967296 := by
    omega
  have hdiv : f.streamBits / 256 * 256 + f.streamBits % 256 = f.streamBits := by
    omega
  have hrec : ((f.body.length / 16777216 * 256 + f.body.length / 65536 % 256) * 256
      + f.body.length / 256 % 256) * 256 + f.body.length % 256 = f.body.length := by
    omega
  simp only [Frame.encode, Frame.decode, hdiv, hrec]
  rw [if_neg (by omega), if_neg (by unfold maxFrameLength; omega),
    if_neg (by omega), List.take_length]
  have hstream : (if 32768 ≤ f.streamBits then (f.streamBits : Int) - 65536
      else (f.streamBits : Int)) = f.stream := by
    split_ifs <;> omega
  rw [hstream]

/-- Witness for C8: the roundtrip at a concrete response frame (version 0x84,
opcode RESULT, stream 1, a 3-byte body). -/
theorem frame_decode_encode_witness :
    Frame.decode 4 (Frame.encode ⟨0x84, 0, 1, 0x08, [0, 1, 2]⟩)
      = some ⟨0x84, 0, 1, 0x08, [0, 1, 2]⟩ :=
  frame_decode_encode 4 ⟨0x84, 0, 1, 0x08, [0, 1, 2]⟩
    (by unfold Frame.wellFormed maxFrameLength; decide)

/-- C1 (code bug evidence): `Session::prepare`, on a RESULT/Prepared response
whose server-assigned short-bytes id is 0xDEADBEEF, ignores the body and
returns the stub id `"stub_id"` — for every server id, metadata and session,
the returned `PreparedStatement` is `⟨"stub_id"⟩`, so the server id is not
stored.  The source marks this with `FIXME: actually read the id`. -/
theorem prepare_returns_stub_id (s : Session) (stmt : String)
    (serverId metadata resultMetadata : List Nat) :
    (Session.prepare s stmt
        (fun _ _ => .ok (.result (.prepared serverId metadata resultMetadata)))).2
      = .ok ⟨"stub_id"⟩ :=
  rfl

/-- C2 (code bug evidence): `Session::query`, on a RESULT/Prepared response,
returns success `Ok(())` instead of rejecting the frame as a protocol
violation; the same `Result(_) => Ok(())` arm also discards Rows contents. -/
theorem query_accepts_prepared_result :
    (Session.query ⟨⟨0⟩⟩ ⟨"SELECT * FROM k.t", Consistency.one⟩
        (fun _ _ => .ok (.result (.prepared [0xDE, 0xAD, 0xBE, 0xEF] [] [])))).2
      = .ok () :=
  rfl

/-- C4: when the connection delivers an ERROR response, `Session::query` fails
and the caller receives the typed server error carrying the ERROR frame's code
and message verbatim. -/
theorem query_server_error (s : Session) (q : Query)
    (net : Connection → Query → Except SessionError Response) (e : DbError)
    (h : net s.connection q = .ok (.error e)) :
    (Session.query s q net).2 = .error (.server ⟨e.code, e.message⟩) := by
  simp [Session.query, h]

/-- Witness for C4: ERROR code 0x2200 with message "bad" yields the server
error `⟨0x2200, "bad"⟩`, whose code is the typed `Invalid` error of §7. -/
theorem query_server_error_witness :
    (Session.query ⟨⟨0⟩⟩ ⟨"SELECT", Consistency.one⟩
        (fun _ _ => .ok (.error ⟨0x2200, "bad"⟩))).2
      = .error (.server ⟨0x2200, "bad"⟩)
    ∧ ErrorCode.ofNat 0x2200 = ErrorCode.invalid :=
  ⟨query_server_error ⟨⟨0⟩⟩ ⟨"SELECT", Consistency.one⟩
      (fun _ _ => .ok (.error ⟨0x2200, "bad"⟩)) ⟨0x2200, "bad"⟩ rfl,
    by decide⟩

/-- C5: when the connection delivers a response that is neither an ERROR nor a
RESULT (Ready, Authenticate, Supported or Event), both `Session::query` and
`Session::prepare` fail with the unexpected-frame error rather than
succeeding. -/
theorem non_error_non_result_rejected (s : Session) (q : Query) (stmt : String)
    (netQ : Connection → Query → Except SessionError Response)
    (netP : Connection → String → Except SessionError Response)
    (r1 r2 : Response)
    (h1 : netQ s.connection q = .ok r1) (hr1 : r1.isErrorOrResult = false)
    (h2 : netP s.connection stmt = .ok r2) (hr2 : r2.isErrorOrResult = false) :
    (Session.query s q netQ).2 = .error .unexpectedFrame ∧
    (Session.prepare s stmt netP).2 = .error .unexpectedFrame := by
  cases r1 <;> cases r2 <;>
    simp_all [Session.query, Session.prepare, Response.isErrorOrResult]

/-- Witness for C5: a Ready response to QUERY and an Event response to PREPARE
both produce the unexpected-frame error. -/
theorem non_error_non_result_rejected_witness :
    (Session.query ⟨⟨0⟩⟩ ⟨"SELECT", Consistency.one⟩ (fun _ _ => .ok .ready)).2
      = .error .unexpectedFrame ∧
    (Session.prepare ⟨⟨0⟩⟩ "SELECT" (fun _ _ => .ok .event)).2
      = .error .unexpectedFrame :=
  non_error_non_result_rejected ⟨⟨0⟩⟩ ⟨"SELECT", Consistency.one⟩ "SELECT"
    (fun _ _ => .ok .ready) (fun _ _ => .ok .event) .ready .event
    rfl rfl rfl rfl

/-- C6: `Session::connect` constructs the Connection, then performs startup on
it, and returns a Session (holding that connection) only when both steps
succeed; when the construction fails its error is returned unchanged, and when
construction succeeds but startup fails the startup error is returned
unchanged. -/
theorem connect_propagates (addr : String)
    (newConn : String → Except SessionError Connection)
    (startup : Connection → StartupOptions → Except SessionError Unit) :
    (∀ e, newConn addr = .error e →
      (Session.connect addr newConn startup).1 = .error e) ∧
    (∀ c e, newConn addr = .ok c → startup c StartupOptions.default = .error e →
      (Session.connect addr newConn startup).1 = .error e) ∧
    (∀ c, newConn addr = .ok c → startup c StartupOptions.default = .ok () →
      (Session.connect addr newConn startup).1 = .ok ⟨c⟩) := by
  refine ⟨fun e he => ?_, fun c e hc hs => ?_, fun c hc hs => ?_⟩
  · simp [Session.connect, he]
  · simp [Session.connect, hc, hs]
  · simp [Session.connect, hc, hs]

/-- Witness for C6: with a Connection construction yielding connection 7 and a
succeeding startup, `connect` returns the Session holding connection 7. -/
theorem connect_propagates_witness :
    (Session.connect "127.0.0.1:9042" (fun _ => .ok ⟨7⟩) (fun _ _ => .ok ())).1
      = .ok ⟨⟨7⟩⟩ :=
  (connect_propagates "127.0.0.1:9042" (fun _ => .ok ⟨7⟩)
      (fun _ _ => .ok ())).2.2 ⟨7⟩ rfl rfl

/-- C7: when `Session::query` surfaces a server error, the session value is
unchanged (the operation takes `&self` and returns the state it was given), and
a subsequent `query` on that same session succeeds when its response is a
RESULT. -/
theorem query_error_session_usable (s : Session) (q q2 : Query)
    (net net2 : Connection → Query → Except SessionError Response)
    (e : DbError) (k : ResultKind)
    (h : net s.connection q = .ok (.error e))
    (h2 : net2 s.connection q2 = .ok (.result k)) :
    Session.query s q net = (s, .error (.server e)) ∧
    (Session.query (Session.query s q net).1 q2 net2).2 = .ok () := by
  constructor
  · simp [Session.query, h]
  · simp [Session.query, h2]

/-- Witness for C7: after a query answered by ERROR 0x2200 "bad", the same
session's next query answered by RESULT/Void succeeds. -/
theorem query_error_session_usable_witness :
    Session.query ⟨⟨0⟩⟩ ⟨"SELECT", Consistency.one⟩
        (fun _ _ => .ok (.error ⟨0x2200, "bad"⟩))
      = (⟨⟨0⟩⟩, .error (.server ⟨0x2200, "bad"⟩)) ∧
    (Session.query (Session.query ⟨⟨0⟩⟩ ⟨"SELECT", Consistency.one⟩
        (fun _ _ => .ok (.error ⟨0x2200, "bad"⟩))).1 ⟨"SELECT", Consistency.one⟩
        (fun _ _ => .ok (.result .void))).2 = .ok () :=
  query_error_session_usable ⟨⟨0⟩⟩ ⟨"SELECT", Consistency.one⟩
    ⟨"SELECT", Consistency.one⟩ (fun _ _ => .ok (.error ⟨0x2200, "bad"⟩))
    (fun _ _ => .ok (.result .void)) ⟨0x2200, "bad"⟩ .void rfl rfl

/-- C9: every startup call made by `Session.connect` uses the default startup
options — `connect` takes only an address, so no other options can reach the
handshake. -/
theorem connect_startup_uses_default_options (addr : String)
    (newConn : String → Except SessionError Connection)
    (startup : Connection → StartupOptions → Except SessionError Unit)
    (opts : StartupOptions)
    (h : ConnOp.startup opts ∈ (Session.connect addr newConn startup).2) :
    opts = StartupOptions.default := by
  unfold Session.connect at h
  split at h
  · simp at h
  · split at h <;> simp_all

/-- Witness for C9: in a successful connect trace, a recorded startup call's
options are the default ones. -/
theorem connect_startup_uses_default_options_witness :
    ConnOp.startup StartupOptions.default
        ∈ (Session.connect "127.0.0.1:9042" (fun _ => .ok ⟨1⟩)
            (fun _ _ => .ok ())).2
    ∧ StartupOptions.default = StartupOptions.default :=
  ⟨by simp [Session.connect],
    connect_startup_uses_default_options "127.0.0.1:9042" (fun _ => .ok ⟨1⟩)
      (fun _ _ => .ok ()) StartupOptions.default (by simp [Session.connect])⟩

/-- C10: every sequence of post-construction operations (query and prepare)
leaves the session unchanged; in particular the connection field established by
`connect` is never replaced, so all operations use the same Connection. -/
theorem run_preserves_session (s : Session) (ops : List SessionOp) :
    Session.run s ops = s ∧ (Session.run s ops).connection = s.connection := by
  have h : Session.run s ops = s := by
    induction ops generalizing s with
    | nil => rfl
    | cons op rest ih =>
      cases op <;> simp [Session.run, Session.step, Session.query,
        Session.prepare, ih]
  exact ⟨h, by rw [h]⟩

end Scylla
